import Mathlib

set_option autoImplicit false
set_option linter.unusedVariables false

/-!
Shallow embedding of the ElevenLabs voice microservice: the provider adapter
(`elevenlabs_client.py`) and the HTTP facade (`main.py`).  External effects
(the SDK, the REST endpoint, environment variables, clocks) are modelled as
explicit environment records; the pure request/response logic is translated
directly from the source.
-/

/-- Python `a or b` on an optional string: `None` and the empty string are
falsy, any other string is returned unchanged. -/
def pyOrStr (a : Option String) (b : String) : String :=
  match a with
  | none => b
  | some s => if s = "" then b else s

/-! ### Base64 (model of the standard library `base64.b64encode`/`b64decode`) -/

/-- The standard base64 alphabet, index `n` holding the character for the
six-bit value `n`. -/
def b64Alphabet : List Char :=
  "ABCDEFGHIJKLMNOPQRSTUVWXYZabcdefghijklmnopqrstuvwxyz0123456789+/".data

/-- Character for a six-bit value. -/
def encChar (n : Nat) : Char := b64Alphabet.getD n '?'

/-- Index of a character in a list of characters. -/
def charIndex (c : Char) : List Char → Option Nat
  | [] => none
  | a :: rest => if a = c then some 0 else (charIndex c rest).map (· + 1)

/-- Six-bit value of an alphabet character, `none` for characters outside
the alphabet. -/
def decChar (c : Char) : Option Nat := charIndex c b64Alphabet

/-- Characters kept by the decoder: alphabet characters and the padding
character (CPython discards all others before decoding). -/
def keepChar (c : Char) : Bool := (decChar c).isSome || c = '='

/-- Base64 encoding of a byte list, three bytes to four characters, the
final group padded with `=`. -/
def b64encodeList : List Nat → List Char
  | [] => []
  | [b0] => [encChar (b0 / 4), encChar (b0 % 4 * 16), '=', '=']
  | [b0, b1] => [encChar (b0 / 4), encChar (b0 % 4 * 16 + b1 / 16), encChar (b1 % 16 * 4), '=']
  | b0 :: b1 :: b2 :: rest =>
      encChar (b0 / 4) :: encChar (b0 % 4 * 16 + b1 / 16) ::
        encChar (b1 % 16 * 4 + b2 / 64) :: encChar (b2 % 64) :: b64encodeList rest

/-- Decode groups of four characters; the final group may carry one or two
padding characters.  Any other shape (stray padding, leftover characters,
characters outside the alphabet) fails, as `binascii` raises. -/
def decodeQuads : List Char → Option (List Nat)
  | [] => some []
  | c0 :: c1 :: c2 :: c3 :: rest =>
      if c2 = '=' ∧ c3 = '=' ∧ rest = [] then
        match decChar c0, decChar c1 with
        | some x, some y => some [x * 4 + y / 16]
        | _, _ => none
      else if c3 = '=' ∧ rest = [] then
        match decChar c0, decChar c1, decChar c2 with
        | some x, some y, some z => some [x * 4 + y / 16, y % 16 * 16 + z / 4]
        | _, _, _ => none
      else
        match decChar c0, decChar c1, decChar c2, decChar c3, decodeQuads rest with
        | some x, some y, some z, some w, some bs =>
            some ((x * 4 + y / 16) :: (y % 16 * 16 + z / 4) :: (z % 4 * 64 + w) :: bs)
        | _, _, _, _, _ => none
  | _ => none

/-- Model of `base64.b64encode` (bytes to ASCII string). -/
def b64encode (bs : List Nat) : String := String.mk (b64encodeList bs)

/-- Model of `base64.b64decode` with its default non-strict mode: characters
outside the alphabet are discarded, then the remainder must decode in groups
of four; `none` models the `binascii.Error` exception. -/
def b64decode (s : String) : Option (List Nat) := decodeQuads (s.data.filter keepChar)

/-! ### Provider adapter (`elevenlabs_client.py`, class ElevenLabsClient) -/

/-- The fixed placeholder transcript returned when both STT paths fail. -/
def sttPlaceholderText : String :=
  "STT API temporarily unavailable - this is a fallback response to test the integration pipeline."

/-- Default voice identifier used by the facade and the client. -/
def defaultVoiceId : String := "21m00Tcm4TlvDq8ikWAM"

/-- The voice-settings dictionary an adapter caller may pass; each key is
optional, mirroring `voice_settings.get(key, default)`. -/
structure VoiceSettingsDict where
  stability : Option ℚ
  similarity_boost : Option ℚ
  style : Option ℚ
  use_speaker_boost : Option Bool
deriving DecidableEq

/-- True when the dictionary has no keys; an empty Python dict is falsy. -/
def VoiceSettingsDict.isEmptyDict (d : VoiceSettingsDict) : Bool :=
  d.stability.isNone && d.similarity_boost.isNone && d.style.isNone &&
    d.use_speaker_boost.isNone

/-- The resolved `VoiceSettings` object handed to the SDK `generate` call. -/
structure VoiceSettings where
  stability : ℚ
  similarity_boost : ℚ
  style : ℚ
  use_speaker_boost : Bool
deriving DecidableEq

namespace ElevenLabsClient

/-- Adapter instance state: `_connected` flag and whether `self.client` is
set (not `None`). -/
structure State where
  connected : Bool
  hasClient : Bool
deriving DecidableEq

/-- `is_connected`: `self._connected and self.client is not None`. -/
def is_connected (st : State) : Bool := st.connected && st.hasClient

/-- The `settings = VoiceSettings(...)` block of `_generate_speech`: a truthy
dictionary contributes each present key, every missing key falls back to the
fixed default; a falsy value (absent or empty dict) gives all defaults. -/
def mkVoiceSettings (voice_settings : Option VoiceSettingsDict) : VoiceSettings :=
  match voice_settings with
  | some vs =>
      if vs.isEmptyDict then
        ⟨0.5, 0.75, 0.0, true⟩
      else
        ⟨vs.stability.getD 0.5, vs.similarity_boost.getD 0.75, vs.style.getD 0.0,
          vs.use_speaker_boost.getD true⟩
  | none => ⟨0.5, 0.75, 0.0, true⟩

/-- Outcome oracle for the blocking SDK `generate` call: given the text, the
voice id, the model id and the resolved settings, either audio bytes or the
message of the raised exception. -/
structure TtsEnv where
  generate : String → String → Option String → VoiceSettings → Except String (List Nat)

/-- `ElevenLabsClient.text_to_speech`: raises when not connected, otherwise
returns the SDK audio bytes or re-raises the SDK error. -/
def text_to_speech (st : State) (env : TtsEnv) (text : String) (voice_id : String)
    (model_id : Option String) (voice_settings : Option VoiceSettingsDict) :
    Except String (List Nat) :=
  if is_connected st = false then .error "Client not connected"
  else env.generate text voice_id model_id (mkVoiceSettings voice_settings)

/-- Result object of the SDK `speech_to_text.convert` call: the optional
`text` attribute (with `str(result)` as fallback), the optional `confidence`
attribute, and whatever language the provider detected (never read). -/
structure SdkSttResult where
  text : Option String
  strRepr : String
  confidence : Option ℚ
  language : Option String
deriving DecidableEq

/-- Parsed JSON body of a REST speech-to-text response; the code reads only
`text` and `confidence`, with defaults. -/
structure RestJson where
  text : Option String
  confidence : Option ℚ
  language : Option String
deriving DecidableEq

/-- A REST response: status code, parsed JSON body (`none` when
`response.json()` raises) and the raw body text used in error messages. -/
structure RestResponse where
  statusCode : Nat
  json : Option RestJson
  bodyText : String
deriving DecidableEq

/-- Outcome oracle for one `speech_to_text` call: whether the SDK object has
a `speech_to_text` attribute, the outcome of the SDK convert call, and the
outcomes of the two REST fallback posts (`Except.error` models a raised
network exception). -/
structure SttEnv where
  sdkHasSTT : Bool
  sdkConvert : Except String SdkSttResult
  restFirst : Except String RestResponse
  restSecond : Except String RestResponse

/-- The provider-specific model rewrite used on both STT paths:
`'scribe_v1' if (model_id or 'whisper-1') == 'whisper-1' else model_id`. -/
def rewriteModelId (model_id : Option String) : String :=
  if pyOrStr model_id "whisper-1" = "whisper-1" then "scribe_v1"
  else model_id.getD ""

/-- Transcript record `{text, confidence, language}` returned by the
adapter. -/
structure STTResult where
  text : String
  confidence : ℚ
  language : String
deriving DecidableEq

/-- The dict built from a successful SDK convert result. -/
def sdkToSttResult (r : SdkSttResult) (language : Option String) : STTResult :=
  ⟨r.text.getD r.strRepr, r.confidence.getD 0.95, pyOrStr language "en"⟩

/-- The dict built from a successful REST JSON body. -/
def restToSttResult (j : RestJson) (language : Option String) : STTResult :=
  ⟨j.text.getD "", j.confidence.getD 0.95, pyOrStr language "en"⟩

/-- Embedding of `_transcribe_audio`: SDK path first (skipped without raising
when the attribute is missing, errors swallowed), then the plain REST upload,
then the REST upload with form data; a non-200 second response raises
`STT API error: ...` and any network or JSON failure raises too. -/
def transcribeCall (env : SttEnv) (model_id language : Option String) :
    Except String STTResult :=
  match (if env.sdkHasSTT then env.sdkConvert.toOption else none) with
  | some r => .ok (sdkToSttResult r language)
  | none =>
      match env.restFirst with
      | .error e => .error e
      | .ok r1 =>
          if r1.statusCode = 200 then
            match r1.json with
            | some j => .ok (restToSttResult j language)
            | none => .error "response body is not valid JSON"
          else
            match env.restSecond with
            | .error e => .error e
            | .ok r2 =>
                if r2.statusCode = 200 then
                  match r2.json with
                  | some j => .ok (restToSttResult j language)
                  | none => .error "response body is not valid JSON"
                else
                  .error ("STT API error: " ++ toString r2.statusCode ++ " - " ++ r2.bodyText)

/-- The fabricated placeholder record returned by the outer exception
handler. -/
def sttFallbackResult (language : Option String) : STTResult :=
  ⟨sttPlaceholderText, 0.8, pyOrStr language "en"⟩

/-- `ElevenLabsClient.speech_to_text`: raises when not connected; otherwise
every failure of the transcription pipeline is swallowed and replaced by the
placeholder record. -/
def speech_to_text (st : State) (env : SttEnv) (audio_data : List Nat)
    (model_id language : Option String) : Except String STTResult :=
  if is_connected st = false then .error "Client not connected"
  else
    match transcribeCall env model_id language with
    | .ok r => .ok r
    | .error _ => .ok (sttFallbackResult language)

/-- Voice dictionary produced by the adapter from a provider voice object. -/
structure VoiceRecord where
  voice_id : String
  name : String
  category : String
  description : Option String
  preview_url : Option String
deriving DecidableEq

/-- Outcome oracle for the `voices.get_all` SDK call. -/
structure VoicesEnv where
  get_all : Except String (List VoiceRecord)

/-- `ElevenLabsClient.get_voices`: raises when not connected, otherwise
returns the mapped provider catalog or re-raises the SDK error. -/
def get_voices (st : State) (env : VoicesEnv) : Except String (List VoiceRecord) :=
  if is_connected st = false then .error "Client not connected"
  else env.get_all

end ElevenLabsClient

/-! ### HTTP facade (`main.py`) -/

/-- Body of a `/tts` request. -/
structure TTSRequest where
  text : String
  voice_id : Option String
  model_id : Option String
  voice_settings : Option VoiceSettingsDict

/-- Body of a `/stt` request; `audio_data` is base64 text. -/
structure STTRequest where
  audio_data : String
  model_id : Option String
  language : Option String

/-- Body of a successful `/tts` response. -/
structure TTSResponse where
  audio_data : String
  voice_id : String
  model_id : Option String
  duration : ℚ
  size : Nat
  generated_at : String
deriving DecidableEq

/-- Body of a successful `/stt` response. -/
structure STTResponse where
  text : String
  confidence : ℚ
  language : String
  processing_time : ℚ
  model_id : String
deriving DecidableEq

/-- Body of a `/health` response. -/
structure HealthResponse where
  status : String
  service : String
  version : String
  uptime : ℚ
  elevenlabs_connected : Bool
deriving DecidableEq

/-- Voice descriptor returned by `/voices`. -/
structure VoiceInfo where
  voice_id : String
  name : String
  category : String
  description : Option String
  preview_url : Option String
deriving DecidableEq

/-- Entry of the static `/models` catalog. -/
structure ModelEntry where
  id : String
  name : String
  description : String
deriving DecidableEq

/-- The static `/models` catalog shape. -/
structure ModelsCatalog where
  tts_models : List ModelEntry
  stt_models : List ModelEntry
deriving DecidableEq

/-- Outcome of a request handler: a typed 200 body or an `HTTPException`
with a status code and a detail message. -/
inductive HandlerResult (α : Type) where
  | ok (body : α)
  | httpError (statusCode : Nat) (detail : String)
deriving DecidableEq

/-- HTTP status of a handler outcome (FastAPI serves a plain body as 200). -/
def responseStatus {α : Type} : HandlerResult α → Nat
  | .ok _ => 200
  | .httpError s _ => s

/-- Detail string of the 503 raised when the global client is unset. -/
def notInitializedDetail : String := "ElevenLabs client not initialized"

/-- Message of the `binascii.Error` raised by `base64.b64decode`, caught by
the generic handler of the `/stt` endpoint. -/
def b64DecodeErrorDetail : String := "Invalid base64-encoded string"

/-- `/health` handler: always a 200 `HealthResponse`. -/
def health_check (client : Option ElevenLabsClient.State) (uptime : ℚ) :
    HandlerResult HealthResponse :=
  .ok ⟨"healthy", "elevenlabs-microservice", "1.0.0", uptime,
    (match client with
     | none => false
     | some st => ElevenLabsClient.is_connected st)⟩

/-- `/tts` handler: 503 when the global client is unset, otherwise delegates
to the adapter, maps any raised error to a 500 with its message, and renders
the audio bytes as base64 with their byte length in `size`. -/
def text_to_speech (client : Option ElevenLabsClient.State)
    (tenv : ElevenLabsClient.TtsEnv) (envVoiceId : Option String)
    (req : TTSRequest) (processing_time : ℚ) (now : String) :
    HandlerResult TTSResponse :=
  match client with
  | none => .httpError 503 notInitializedDetail
  | some st =>
      let voice_id := pyOrStr req.voice_id (envVoiceId.getD defaultVoiceId)
      match ElevenLabsClient.text_to_speech st tenv req.text voice_id req.model_id
          req.voice_settings with
      | .error e => .httpError 500 e
      | .ok audio_data =>
          .ok ⟨b64encode audio_data, voice_id, req.model_id, processing_time,
            audio_data.length, now⟩

/-- `/stt` handler: 503 when the global client is unset; base64 decoding and
the adapter call run inside the `try` block whose handler maps any raised
error to a 500 with its message. -/
def speech_to_text (client : Option ElevenLabsClient.State)
    (senv : ElevenLabsClient.SttEnv) (req : STTRequest) (processing_time : ℚ) :
    HandlerResult STTResponse :=
  match client with
  | none => .httpError 503 notInitializedDetail
  | some st =>
      match b64decode req.audio_data with
      | none => .httpError 500 b64DecodeErrorDetail
      | some audio_data =>
          match ElevenLabsClient.speech_to_text st senv audio_data req.model_id
              req.language with
          | .error e => .httpError 500 e
          | .ok r =>
              .ok ⟨r.text, r.confidence, r.language, processing_time,
                pyOrStr req.model_id "whisper-1"⟩

/-- `/voices` handler: 503 when the global client is unset, 500 on adapter
error, otherwise the mapped voice list. -/
def get_voices (client : Option ElevenLabsClient.State)
    (venv : ElevenLabsClient.VoicesEnv) : HandlerResult (List VoiceInfo) :=
  match client with
  | none => .httpError 503 notInitializedDetail
  | some st =>
      match ElevenLabsClient.get_voices st venv with
      | .error e => .httpError 500 e
      | .ok voices =>
          .ok (voices.map fun v =>
            ⟨v.voice_id, v.name, v.category, v.description, v.preview_url⟩)

/-- The literal catalog returned by `/models`. -/
def modelsCatalog : ModelsCatalog :=
  ⟨[⟨"eleven_monolingual_v1", "Eleven Monolingual v1", "High quality English model"⟩,
    ⟨"eleven_multilingual_v1", "Eleven Multilingual v1",
      "Multilingual model supporting various languages"⟩,
    ⟨"eleven_multilingual_v2", "Eleven Multilingual v2",
      "Latest multilingual model with improved quality"⟩],
   [⟨"whisper-1", "Whisper v1", "OpenAI Whisper model for speech recognition"⟩]⟩

/-- `/models` handler: the body never consults the global client and always
returns the static catalog. -/
def get_models (client : Option ElevenLabsClient.State) : HandlerResult ModelsCatalog :=
  .ok modelsCatalog

/-- The placeholder credential value rejected at startup. -/
def placeholderApiKey : String := "your-elevenlabs-api-key-here"

/-- Startup environment: the `ELEVENLABS_API_KEY` variable (set or not) and
whether `initialize()` succeeds against the provider. -/
structure StartupEnv where
  apiKey : Option String
  initSucceeds : Bool

/-- The credential check `not api_key or api_key == "your-elevenlabs-api-key-here"`:
an unset variable, an empty string (falsy) or the placeholder all fail. -/
def apiKeyMissing (apiKey : Option String) : Bool :=
  match apiKey with
  | none => true
  | some k => k == "" || k == placeholderApiKey

/-- Startup part of `lifespan`: raises on a missing credential or a failed
adapter initialization, otherwise installs a connected client. -/
def lifespanStartup (env : StartupEnv) : Except String ElevenLabsClient.State :=
  if apiKeyMissing env.apiKey then .error "ElevenLabs API key is required"
  else if env.initSucceeds then .ok ⟨true, true⟩
  else .error "Failed to initialize ElevenLabs client"

/-! ### Theorems -/

theorem decChar_encChar : ∀ n : Nat, n < 64 → decChar (encChar n) = some n := by decide

theorem encChar_ne_pad : ∀ n : Nat, n < 64 → encChar n ≠ '=' := by decide

theorem keepChar_encChar (n : Nat) (h : n < 64) : keepChar (encChar n) = true := by
  simp [keepChar, decChar_encChar n h]

theorem keepChar_pad : keepChar '=' = true := by decide

theorem filter_b64encodeList : ∀ bs : List Nat, (∀ b ∈ bs, b < 256) →
    (b64encodeList bs).filter keepChar = b64encodeList bs
  | [], _ => rfl
  | [b0], h => by
      have h0 : b0 < 256 := h b0 (by simp)
      simp [b64encodeList, List.filter, keepChar_encChar _ (by omega : b0 / 4 < 64),
        keepChar_encChar _ (by omega : b0 % 4 * 16 < 64), keepChar_pad]
  | [b0, b1], h => by
      have h0 : b0 < 256 := h b0 (by simp)
      have h1 : b1 < 256 := h b1 (by simp)
      simp [b64encodeList, List.filter, keepChar_encChar _ (by omega : b0 / 4 < 64),
        keepChar_encChar _ (by omega : b0 % 4 * 16 + b1 / 16 < 64),
        keepChar_encChar _ (by omega : b1 % 16 * 4 < 64), keepChar_pad]
  | b0 :: b1 :: b2 :: rest, h => by
      have h0 : b0 < 256 := h b0 (by simp)
      have h1 : b1 < 256 := h b1 (by simp)
      have h2 : b2 < 256 := h b2 (by simp)
      have ih := filter_b64encodeList rest (fun b hb => h b (by simp [hb]))
      simp only [b64encodeList, List.filter,
        keepChar_encChar _ (by omega : b0 / 4 < 64),
        keepChar_encChar _ (by omega : b0 % 4 * 16 + b1 / 16 < 64),
        keepChar_encChar _ (by omega : b1 % 16 * 4 + b2 / 64 < 64),
        keepChar_encChar _ (by omega : b2 % 64 < 64)]
      rw [show (b64encodeList rest).filter keepChar = b64encodeList rest from ih]

theorem decodeQuads_encode : ∀ bs : List Nat, (∀ b ∈ bs, b < 256) →
    decodeQuads (b64encodeList bs) = some bs
  | [], _ => rfl
  | [b0], h => by
      have h0 : b0 < 256 := h b0 (by simp)
      show decodeQuads [encChar (b0 / 4), encChar (b0 % 4 * 16), '=', '='] = some [b0]
      simp only [decodeQuads]
      rw [if_pos ⟨trivial, trivial, trivial⟩]
      rw [decChar_encChar _ (by omega : b0 / 4 < 64),
        decChar_encChar _ (by omega : b0 % 4 * 16 < 64)]
      show some [b0 / 4 * 4 + b0 % 4 * 16 / 16] = some [b0]
      congr 2
      omega
  | [b0, b1], h => by
      have h0 : b0 < 256 := h b0 (by simp)
      have h1 : b1 < 256 := h b1 (by simp)
      show decodeQuads [encChar (b0 / 4), encChar (b0 % 4 * 16 + b1 / 16),
        encChar (b1 % 16 * 4), '='] = some [b0, b1]
      simp only [decodeQuads]
      rw [if_neg (fun hc => encChar_ne_pad _ (by omega : b1 % 16 * 4 < 64) hc.1)]
      rw [if_pos ⟨trivial, trivial⟩]
      rw [decChar_encChar _ (by omega : b0 / 4 < 64),
        decChar_encChar _ (by omega : b0 % 4 * 16 + b1 / 16 < 64),
        decChar_encChar _ (by omega : b1 % 16 * 4 < 64)]
      show some [b0 / 4 * 4 + (b0 % 4 * 16 + b1 / 16) / 16,
        (b0 % 4 * 16 + b1 / 16) % 16 * 16 + b1 % 16 * 4 / 4] = some [b0, b1]
      congr 2
      · omega
      · congr 1
        omega
  | b0 :: b1 :: b2 :: rest, h => by
      have h0 : b0 < 256 := h b0 (by simp)
      have h1 : b1 < 256 := h b1 (by simp)
      have h2 : b2 < 256 := h b2 (by simp)
      have ih := decodeQuads_encode rest (fun b hb => h b (by simp [hb]))
      show decodeQuads (encChar (b0 / 4) :: encChar (b0 % 4 * 16 + b1 / 16) ::
        encChar (b1 % 16 * 4 + b2 / 64) :: encChar (b2 % 64) :: b64encodeList rest) =
        some (b0 :: b1 :: b2 :: rest)
      simp only [decodeQuads]
      rw [if_neg (fun hc => encChar_ne_pad _ (by omega : b1 % 16 * 4 + b2 / 64 < 64) hc.1)]
      rw [if_neg (fun hc => encChar_ne_pad _ (by omega : b2 % 64 < 64) hc.1)]
      rw [decChar_encChar _ (by omega : b0 / 4 < 64),
        decChar_encChar _ (by omega : b0 % 4 * 16 + b1 / 16 < 64),
        decChar_encChar _ (by omega : b1 % 16 * 4 + b2 / 64 < 64),
        decChar_encChar _ (by omega : b2 % 64 < 64), ih]
      show some ((b0 / 4 * 4 + (b0 % 4 * 16 + b1 / 16) / 16) ::
        ((b0 % 4 * 16 + b1 / 16) % 16 * 16 + (b1 % 16 * 4 + b2 / 64) / 4) ::
        ((b1 % 16 * 4 + b2 / 64) % 4 * 64 + b2 % 64) :: rest) = some (b0 :: b1 :: b2 :: rest)
      have e0 : b0 / 4 * 4 + (b0 % 4 * 16 + b1 / 16) / 16 = b0 := by omega
      have e1 : (b0 % 4 * 16 + b1 / 16) % 16 * 16 + (b1 % 16 * 4 + b2 / 64) / 4 = b1 := by omega
      have e2 : (b1 % 16 * 4 + b2 / 64) % 4 * 64 + b2 % 64 = b2 := by omega
      rw [e0, e1, e2]

/-- Decoding a freshly encoded byte list gives back the bytes. -/
theorem b64decode_b64encode (bs : List Nat) (h : ∀ b ∈ bs, b < 256) :
    b64decode (b64encode bs) = some bs := by
  unfold b64decode b64encode
  rw [show (String.mk (b64encodeList bs)).data = b64encodeList bs from rfl]
  rw [filter_b64encodeList bs h]
  exact decodeQuads_encode bs h

/-- Every successful outcome of the transcription pipeline carries
`language or "en"`, independently of anything the provider detected. -/
theorem transcribeCall_ok_language (env : ElevenLabsClient.SttEnv)
    (model_id language : Option String) (r : ElevenLabsClient.STTResult)
    (h : ElevenLabsClient.transcribeCall env model_id language = Except.ok r) :
    r.language = pyOrStr language "en" := by
  unfold ElevenLabsClient.transcribeCall at h
  repeat' split at h
  all_goals first
    | (cases h; rfl)
    | simp at h

/-- C1: with a connected client, speech_to_text never propagates an
exception: for every provider environment the call returns `ok`, and the
value is either the provider transcript produced by the SDK/REST pipeline
or, when that whole pipeline fails, the fixed placeholder record with
confidence exactly 0.80. -/
theorem stt_never_propagates (st : ElevenLabsClient.State)
    (env : ElevenLabsClient.SttEnv) (audio_bytes : List Nat)
    (model_id language : Option String)
    (hconn : ElevenLabsClient.is_connected st = true) :
    ∃ r : ElevenLabsClient.STTResult,
      ElevenLabsClient.speech_to_text st env audio_bytes model_id language = Except.ok r ∧
        (ElevenLabsClient.transcribeCall env model_id language = Except.ok r ∨
          ((ElevenLabsClient.transcribeCall env model_id language).toOption = none ∧
            r.text = sttPlaceholderText ∧ r.confidence = 0.8)) := by
  unfold ElevenLabsClient.speech_to_text
  rw [hconn]
  cases h : ElevenLabsClient.transcribeCall env model_id language with
  | ok r => exact ⟨r, by simp, Or.inl rfl⟩
  | error e => exact ⟨ElevenLabsClient.sttFallbackResult language, by simp, Or.inr ⟨rfl, rfl, rfl⟩⟩

/-- Witness for C1: client connected, SDK attribute missing, both REST posts
raising; the call still returns `ok`. -/
theorem stt_never_propagates_witness :
    ∃ r : ElevenLabsClient.STTResult,
      ElevenLabsClient.speech_to_text ⟨true, true⟩
          ⟨false, Except.error "no sdk", Except.error "net down", Except.error "net down"⟩
          [1, 2, 3] (some "whisper-1") none = Except.ok r ∧
        (ElevenLabsClient.transcribeCall
            ⟨false, Except.error "no sdk", Except.error "net down", Except.error "net down"⟩
            (some "whisper-1") none = Except.ok r ∨
          ((ElevenLabsClient.transcribeCall
              ⟨false, Except.error "no sdk", Except.error "net down", Except.error "net down"⟩
              (some "whisper-1") none).toOption = none ∧
            r.text = sttPlaceholderText ∧ r.confidence = 0.8)) :=
  stt_never_propagates ⟨true, true⟩
    ⟨false, Except.error "no sdk", Except.error "net down", Except.error "net down"⟩
    [1, 2, 3] (some "whisper-1") none rfl

/-- C10 counterexample: the caller supplies the empty string as language, a
value, and the returned record carries "en" instead of it. -/
theorem stt_language_empty_counterexample :
    ElevenLabsClient.speech_to_text ⟨true, true⟩
        ⟨false, Except.error "no sdk", Except.error "net down", Except.error "net down"⟩
        [] none (some "") =
      Except.ok ⟨sttPlaceholderText, 0.8, "en"⟩ ∧ ("en" : String) ≠ "" :=
  ⟨rfl, by decide⟩

/-- C10 (amended): on every return path the language field of the returned
record is the caller-supplied language when that is non-empty and "en" when
it is absent or empty; the provider-detected language in the environment is
never consulted. -/
theorem stt_language_resolution (st : ElevenLabsClient.State)
    (env : ElevenLabsClient.SttEnv) (audio_bytes : List Nat)
    (model_id language : Option String)
    (hconn : ElevenLabsClient.is_connected st = true) :
    ∃ r : ElevenLabsClient.STTResult,
      ElevenLabsClient.speech_to_text st env audio_bytes model_id language = Except.ok r ∧
        r.language = (match language with
          | none => "en"
          | some l => if l = "" then "en" else l) := by
  have hmatch : (match language with
      | none => "en"
      | some l => if l = "" then "en" else l) = pyOrStr language "en" := by
    cases language with
    | none => rfl
    | some l => rfl
  unfold ElevenLabsClient.speech_to_text
  rw [hconn, hmatch]
  cases h : ElevenLabsClient.transcribeCall env model_id language with
  | ok r => exact ⟨r, by simp, transcribeCall_ok_language env model_id language r h⟩
  | error e => exact ⟨ElevenLabsClient.sttFallbackResult language, by simp, rfl⟩

/-- Witness for C10: language "fr" supplied, SDK succeeding with a detected
language "de"; the record still carries "fr". -/
theorem stt_language_resolution_witness :
    ∃ r : ElevenLabsClient.STTResult,
      ElevenLabsClient.speech_to_text ⟨true, true⟩
          ⟨true, Except.ok ⟨some "bonjour", "obj", some 0.9, some "de"⟩,
            Except.error "x", Except.error "x"⟩ [7] (some "whisper-1") (some "fr") =
        Except.ok r ∧
        r.language = (match (some "fr" : Option String) with
          | none => "en"
          | some l => if l = "" then "en" else l) :=
  stt_language_resolution ⟨true, true⟩
    ⟨true, Except.ok ⟨some "bonjour", "obj", some 0.9, some "de"⟩,
      Except.error "x", Except.error "x"⟩ [7] (some "whisper-1") (some "fr") rfl

/-- C9: every voice-settings parameter the caller supplies is passed to the
provider unchanged and every omitted parameter takes its fixed default:
stability 0.5, similarity_boost 0.75, style 0.0, use_speaker_boost true. -/
theorem voice_settings_passthrough (voice_settings : Option VoiceSettingsDict) :
    (ElevenLabsClient.mkVoiceSettings voice_settings).stability =
        (voice_settings.bind VoiceSettingsDict.stability).getD 0.5 ∧
      (ElevenLabsClient.mkVoiceSettings voice_settings).similarity_boost =
        (voice_settings.bind VoiceSettingsDict.similarity_boost).getD 0.75 ∧
      (ElevenLabsClient.mkVoiceSettings voice_settings).style =
        (voice_settings.bind VoiceSettingsDict.style).getD 0.0 ∧
      (ElevenLabsClient.mkVoiceSettings voice_settings).use_speaker_boost =
        (voice_settings.bind VoiceSettingsDict.use_speaker_boost).getD true := by
  rcases voice_settings with _ | ⟨s, sb, sty, usb⟩
  · exact ⟨rfl, rfl, rfl, rfl⟩
  · cases s <;> cases sb <;> cases sty <;> cases usb <;>
      simp [ElevenLabsClient.mkVoiceSettings, VoiceSettingsDict.isEmptyDict]

/-- C8 counterexample: the empty string is a caller-supplied model id other
than whisper-1, yet it is rewritten to scribe_v1 rather than forwarded. -/
theorem rewrite_model_id_counterexample :
    ElevenLabsClient.rewriteModelId (some "") = "scribe_v1" ∧
      ("scribe_v1" : String) ≠ "" :=
  ⟨rfl, by decide⟩

/-- C8 (amended): in the REST fallback second attempt the provider receives
scribe_v1 when the caller model id is whisper-1, absent, or empty, and any
other non-empty caller-supplied model id is forwarded unchanged. -/
theorem rewrite_model_id_spec (m : String) (h1 : m ≠ "") (h2 : m ≠ "whisper-1") :
    ElevenLabsClient.rewriteModelId none = "scribe_v1" ∧
      ElevenLabsClient.rewriteModelId (some "") = "scribe_v1" ∧
      ElevenLabsClient.rewriteModelId (some "whisper-1") = "scribe_v1" ∧
      ElevenLabsClient.rewriteModelId (some m) = m := by
  refine ⟨rfl, rfl, rfl, ?_⟩
  simp [ElevenLabsClient.rewriteModelId, pyOrStr, h1, h2]

/-- Witness for C8 at a concrete non-empty, non-whisper model id. -/
theorem rewrite_model_id_spec_witness :
    ElevenLabsClient.rewriteModelId none = "scribe_v1" ∧
      ElevenLabsClient.rewriteModelId (some "") = "scribe_v1" ∧
      ElevenLabsClient.rewriteModelId (some "whisper-1") = "scribe_v1" ∧
      ElevenLabsClient.rewriteModelId (some "eleven_english_v2") = "eleven_english_v2" :=
  rewrite_model_id_spec "eleven_english_v2" (by decide) (by decide)

/-- C2 counterexample: the body "a" is not valid base64 (one data character)
and the /stt endpoint answers 500, which is not a 4xx status. -/
theorem stt_bad_base64_counterexample :
    speech_to_text (some ⟨true, true⟩)
        ⟨false, Except.error "s", Except.error "s", Except.error "s"⟩
        ⟨"a", some "whisper-1", none⟩ 0 =
      HandlerResult.httpError 500 b64DecodeErrorDetail ∧
      ¬(400 ≤ (500 : Nat) ∧ (500 : Nat) < 500) :=
  ⟨rfl, by omega⟩

/-- C2 (amended): a /stt request whose audio_data is not valid base64 is
answered with a 500 carrying the decode-error detail, because the decode
runs inside the generic try/except of the handler; only malformed request
shapes are rejected with a 4xx, by the framework validation layer before
the handler body runs. -/
theorem stt_bad_base64_500 (st : ElevenLabsClient.State)
    (senv : ElevenLabsClient.SttEnv) (req : STTRequest) (pt : ℚ)
    (hdec : b64decode req.audio_data = none) :
    speech_to_text (some st) senv req pt =
      HandlerResult.httpError 500 b64DecodeErrorDetail := by
  simp only [speech_to_text]
  rw [hdec]

/-- Witness for C2 at the concrete invalid body "a". -/
theorem stt_bad_base64_500_witness :
    b64decode "a" = none ∧
      speech_to_text (some ⟨false, false⟩)
          ⟨false, Except.error "s", Except.error "s", Except.error "s"⟩
          ⟨"a", none, none⟩ 0 =
        HandlerResult.httpError 500 b64DecodeErrorDetail :=
  ⟨rfl, stt_bad_base64_500 ⟨false, false⟩
    ⟨false, Except.error "s", Except.error "s", Except.error "s"⟩ ⟨"a", none, none⟩ 0 rfl⟩

/-- C3 counterexample: with the client global unset, /models does not answer
503; it answers 200 with the static catalog. -/
theorem models_uninitialized_counterexample :
    get_models none = HandlerResult.ok modelsCatalog ∧
      responseStatus (get_models none) ≠ 503 :=
  ⟨rfl, by decide⟩

/-- C3 (amended): /voices before successful initialization answers 503 and
never crashes; /models never consults the client state and always answers
200 with the static catalog. -/
theorem voices_503_models_200 (venv : ElevenLabsClient.VoicesEnv)
    (client : Option ElevenLabsClient.State) :
    get_voices none venv = HandlerResult.httpError 503 notInitializedDetail ∧
      get_models client = HandlerResult.ok modelsCatalog ∧
      responseStatus (get_models client) = 200 :=
  ⟨rfl, rfl, rfl⟩

/-- C4: for every successful /tts response, base64-decoding the audio_data
field yields exactly the byte payload produced by the adapter, and the size
field is the length in bytes of that payload. -/
theorem tts_base64_roundtrip (st : ElevenLabsClient.State)
    (tenv : ElevenLabsClient.TtsEnv) (envVoiceId : Option String) (req : TTSRequest)
    (pt : ℚ) (now : String) (audio_bytes : List Nat) (resp : TTSResponse)
    (hgen : ElevenLabsClient.text_to_speech st tenv req.text
        (pyOrStr req.voice_id (envVoiceId.getD defaultVoiceId)) req.model_id
        req.voice_settings = Except.ok audio_bytes)
    (hbytes : ∀ b ∈ audio_bytes, b < 256)
    (hok : text_to_speech (some st) tenv envVoiceId req pt now = HandlerResult.ok resp) :
    b64decode resp.audio_data = some audio_bytes ∧ resp.size = audio_bytes.length := by
  simp only [text_to_speech] at hok
  rw [hgen] at hok
  injection hok with h
  subst h
  exact ⟨b64decode_b64encode audio_bytes hbytes, rfl⟩

/-- Witness for C4: three audio bytes encode to "TWFu" and decode back. -/
theorem tts_base64_roundtrip_witness :
    b64decode (TTSResponse.mk "TWFu" defaultVoiceId (some "eleven_monolingual_v1")
        0 3 "t").audio_data = some [77, 97, 110] ∧
      (TTSResponse.mk "TWFu" defaultVoiceId (some "eleven_monolingual_v1")
        0 3 "t").size = ([77, 97, 110] : List Nat).length :=
  tts_base64_roundtrip ⟨true, true⟩ ⟨fun _ _ _ _ => Except.ok [77, 97, 110]⟩ none
    ⟨"hello", none, some "eleven_monolingual_v1", none⟩ 0 "t" [77, 97, 110]
    ⟨"TWFu", defaultVoiceId, some "eleven_monolingual_v1", 0, 3, "t"⟩
    rfl (by decide) rfl

/-- C5: /tts and /stt answer 503 when the client global is unset, and map an
error raised by the adapter during the request to a 500 carrying the error
message. -/
theorem tts_stt_error_mapping (st : ElevenLabsClient.State)
    (tenv : ElevenLabsClient.TtsEnv) (senv : ElevenLabsClient.SttEnv)
    (envVoiceId : Option String) (treq : TTSRequest) (sreq : STTRequest)
    (pt : ℚ) (now : String) (audio_bytes : List Nat) (e1 e2 : String)
    (hdec : b64decode sreq.audio_data = some audio_bytes)
    (htts : ElevenLabsClient.text_to_speech st tenv treq.text
        (pyOrStr treq.voice_id (envVoiceId.getD defaultVoiceId)) treq.model_id
        treq.voice_settings = Except.error e1)
    (hstt : ElevenLabsClient.speech_to_text st senv audio_bytes sreq.model_id
        sreq.language = Except.error e2) :
    text_to_speech none tenv envVoiceId treq pt now =
        HandlerResult.httpError 503 notInitializedDetail ∧
      speech_to_text none senv sreq pt = HandlerResult.httpError 503 notInitializedDetail ∧
      text_to_speech (some st) tenv envVoiceId treq pt now =
        HandlerResult.httpError 500 e1 ∧
      speech_to_text (some st) senv sreq pt = HandlerResult.httpError 500 e2 := by
  refine ⟨rfl, rfl, ?_, ?_⟩
  · simp only [text_to_speech]
    rw [htts]
  · simp only [speech_to_text, hdec]
    rw [hstt]

/-- Witness for C5: a constructed but unconnected adapter raises
"Client not connected" on both endpoints, mapped to 500; the unset global
gives 503. -/
theorem tts_stt_error_mapping_witness :
    text_to_speech none ⟨fun _ _ _ _ => Except.ok []⟩ none
        ⟨"hello", none, some "eleven_monolingual_v1", none⟩ 0 "t" =
        HandlerResult.httpError 503 notInitializedDetail ∧
      speech_to_text none ⟨false, Except.error "s", Except.error "s", Except.error "s"⟩
        ⟨"", some "whisper-1", none⟩ 0 = HandlerResult.httpError 503 notInitializedDetail ∧
      text_to_speech (some ⟨false, true⟩) ⟨fun _ _ _ _ => Except.ok []⟩ none
        ⟨"hello", none, some "eleven_monolingual_v1", none⟩ 0 "t" =
        HandlerResult.httpError 500 "Client not connected" ∧
      speech_to_text (some ⟨false, true⟩)
        ⟨false, Except.error "s", Except.error "s", Except.error "s"⟩
        ⟨"", some "whisper-1", none⟩ 0 = HandlerResult.httpError 500 "Client not connected" :=
  tts_stt_error_mapping ⟨false, true⟩ ⟨fun _ _ _ _ => Except.ok []⟩
    ⟨false, Except.error "s", Except.error "s", Except.error "s"⟩ none
    ⟨"hello", none, some "eleven_monolingual_v1", none⟩ ⟨"", some "whisper-1", none⟩
    0 "t" [] "Client not connected" "Client not connected" rfl rfl rfl

/-- C6: every /health request answers 200 with the declared schema (status,
service, version, uptime, connectivity flag), whatever the adapter state. -/
theorem health_always_200 (client : Option ElevenLabsClient.State) (uptime : ℚ) :
    health_check client uptime =
        HandlerResult.ok ⟨"healthy", "elevenlabs-microservice", "1.0.0", uptime,
          (match client with
           | none => false
           | some st => ElevenLabsClient.is_connected st)⟩ ∧
      responseStatus (health_check client uptime) = 200 :=
  ⟨rfl, rfl⟩

/-- C7 counterexample: the key set to the empty string is neither absent nor
the placeholder and initialization would succeed, yet startup still fails. -/
theorem startup_empty_key_counterexample :
    (lifespanStartup ⟨some "", true⟩).toOption = none ∧
      (some "" : Option String) ≠ none ∧ ("" : String) ≠ placeholderApiKey ∧
      (⟨some "", true⟩ : StartupEnv).initSucceeds = true :=
  ⟨rfl, by simp, by decide, rfl⟩

/-- C7 (amended): startup fails exactly when the API key variable is unset,
empty, or the placeholder value, or adapter initialization fails; with any
other credential and successful initialization it completes. -/
theorem startup_fails_iff (env : StartupEnv) :
    (lifespanStartup env).toOption = none ↔
      (env.apiKey = none ∨ env.apiKey = some "" ∨ env.apiKey = some placeholderApiKey ∨
        env.initSucceeds = false) := by
  rcases env with ⟨k, init⟩
  rcases k with _ | k
  · simp [lifespanStartup, apiKeyMissing, Except.toOption]
  · by_cases h1 : k = ""
    · subst h1
      simp [lifespanStartup, apiKeyMissing, Except.toOption]
    · by_cases h2 : k = placeholderApiKey
      · subst h2
        simp [lifespanStartup, apiKeyMissing, Except.toOption]
      · cases init <;>
          simp [lifespanStartup, apiKeyMissing, Except.toOption, h1, h2]
